import Mathlib

/-!
Shallow embedding of the roommate-finder matching engine
(src/core/matching/engine.py) and verification of the frozen claims.

Modelling conventions:
* Python ints are Lean integers; Python floats are modelled as exact
  rationals.  All the fractions the engine manipulates (range ratios,
  compatibility coefficients, band interpolations) are small rationals,
  and at no point relevant to the claims does the result of the Python
  float computation differ from the exact rational value.
* Python int(x) truncates toward zero; this is pytrunc below.
* The distance between the two profiles is produced by
  MatchingEngineV1._calculate_distance, a Haversine great-circle formula
  over transcendental functions; it is not exactly representable, so the
  embedded calculate_match receives the computed distance as an explicit
  parameter distance_km.  For two identical coordinate pairs the
  Haversine distance is exactly 0 (all the angle differences vanish), so
  claims about profiles with equal coordinates are stated at distance 0.
* reasons.sort(key, reverse true) in Python is a stable descending sort;
  sort_desc below is a stable descending insertion sort, which produces
  the identical list.
-/

namespace RoommateFinder

/-- MatchReason enumeration from engine.py. -/
inductive MatchReason where
  | budget_match
  | location_close
  | cleanliness_match
  | sleep_schedule_match
  | lifestyle_match
  | availability_match
  | work_status_match
deriving DecidableEq, Repr

/-- ConflictWarning enumeration from engine.py. -/
inductive ConflictWarning where
  | budget_mismatch
  | location_far
  | cleanliness_conflict
  | sleep_conflict
  | smoking_conflict
  | pets_conflict
  | guest_frequency_conflict
deriving DecidableEq, Repr

/-- UserMatchProfile dataclass from engine.py. -/
structure UserMatchProfile where
  user_id : ℤ
  age : ℤ
  latitude : ℚ
  longitude : ℚ
  city : String
  looking_for_short_term : Bool
  looking_for_long_term : Bool
  move_in_earliest : Option String
  move_in_latest : Option String
  budget_min : ℤ
  budget_max : ℤ
  cleanliness_level : String
  sleep_schedule : String
  smoking_ok : Bool
  drinking_ok : Bool
  pets_ok : Bool
  guest_frequency : String
  is_student : Bool
  is_working : Bool
  reputation_score : ℤ
deriving DecidableEq, Repr

/-- MatchExplanation dataclass from engine.py. -/
structure MatchExplanation where
  score : ℤ
  top_reasons : List (MatchReason × ℤ)
  conflicts : List ConflictWarning
  distance_km : ℚ
  budget_overlap : ℤ × ℤ
deriving DecidableEq, Repr

/-- MatchResult dataclass from engine.py. -/
structure MatchResult where
  user_id : ℤ
  score : ℤ
  explanation : MatchExplanation
deriving DecidableEq, Repr

/-- MatchingEngineV1 instance state: the single constructor parameter
max_distance_km (default 50.0), stored by __init__ and read nowhere else. -/
structure MatchingEngineV1 where
  max_distance_km : ℚ
deriving DecidableEq, Repr

/-- Python int(x): truncation toward zero. -/
def pytrunc (q : ℚ) : ℤ :=
  if q < 0 then -⌊-q⌋ else ⌊q⌋

/-- Python round to nearest integer with ties to even. -/
def roundHalfEven (q : ℚ) : ℤ :=
  if q - ⌊q⌋ < 1 / 2 then ⌊q⌋
  else if 1 / 2 < q - ⌊q⌋ then ⌊q⌋ + 1
  else if 2 ∣ ⌊q⌋ then ⌊q⌋ else ⌊q⌋ + 1

/-- Python round(x, 2): round to two decimal places. -/
def round2 (q : ℚ) : ℚ :=
  (roundHalfEven (q * 100) : ℚ) / 100

/-- Weight constant from engine.py. -/
def WEIGHT_BUDGET : ℤ := 20

/-- Weight constant from engine.py. -/
def WEIGHT_LOCATION : ℤ := 25

/-- Weight constant from engine.py. -/
def WEIGHT_CLEANLINESS : ℤ := 15

/-- Weight constant from engine.py. -/
def WEIGHT_SLEEP : ℤ := 10

/-- Weight constant from engine.py. -/
def WEIGHT_LIFESTYLE : ℤ := 15

/-- Weight constant from engine.py. -/
def WEIGHT_AVAILABILITY : ℤ := 10

/-- Weight constant from engine.py. -/
def WEIGHT_REPUTATION : ℤ := 5

/-- Distance threshold (km) from engine.py. -/
def DISTANCE_EXCELLENT : ℚ := 5

/-- Distance threshold (km) from engine.py. -/
def DISTANCE_GOOD : ℚ := 15

/-- Distance threshold (km) from engine.py. -/
def DISTANCE_ACCEPTABLE : ℚ := 30

/-- Distance threshold (km) from engine.py. -/
def DISTANCE_FAR : ℚ := 50

/-- Python dict.get(key, default) over an association-list rendering of a
dict literal. -/
def dictGet (l : List ((String × String) × ℚ)) (k : String × String) (d : ℚ) : ℚ :=
  match l with
  | [] => d
  | (key, v) :: rest => if k = key then v else dictGet rest k d

/-- CLEANLINESS_COMPATIBILITY dict from engine.py. -/
def CLEANLINESS_COMPATIBILITY : List ((String × String) × ℚ) :=
  [(("very_clean", "very_clean"), 1),
   (("very_clean", "clean"), 0.8),
   (("very_clean", "moderate"), 0.4),
   (("very_clean", "relaxed"), 0),
   (("clean", "clean"), 1),
   (("clean", "moderate"), 0.7),
   (("clean", "relaxed"), 0.3),
   (("moderate", "moderate"), 1),
   (("moderate", "relaxed"), 0.7),
   (("relaxed", "relaxed"), 1)]

/-- SLEEP_COMPATIBILITY dict from engine.py. -/
def SLEEP_COMPATIBILITY : List ((String × String) × ℚ) :=
  [(("early_bird", "early_bird"), 1),
   (("early_bird", "normal"), 0.7),
   (("early_bird", "night_owl"), 0.2),
   (("normal", "normal"), 1),
   (("normal", "night_owl"), 0.7),
   (("night_owl", "night_owl"), 1)]

/-- MatchingEngineV1._score_budget. -/
def score_budget (seeker candidate : UserMatchProfile) : ℤ × (ℤ × ℤ) :=
  let overlap_min := max seeker.budget_min candidate.budget_min
  let overlap_max := min seeker.budget_max candidate.budget_max
  if overlap_max < overlap_min then
    (0, (0, 0))
  else
    let overlap_range := overlap_max - overlap_min
    let seeker_range := seeker.budget_max - seeker.budget_min
    let candidate_range := candidate.budget_max - candidate.budget_min
    let avg_range : ℚ := ((seeker_range : ℚ) + (candidate_range : ℚ)) / 2
    let overlap_ratio : ℚ :=
      if avg_range = 0 then 1 else min ((overlap_range : ℚ) / avg_range) 1
    (pytrunc (overlap_ratio * (WEIGHT_BUDGET : ℚ)), (overlap_min, overlap_max))

/-- MatchingEngineV1._score_location. -/
def score_location (distance_km : ℚ) : ℤ :=
  if distance_km ≤ DISTANCE_EXCELLENT then
    WEIGHT_LOCATION
  else if distance_km ≤ DISTANCE_GOOD then
    let ratio := 1 - ((distance_km - DISTANCE_EXCELLENT) /
      (DISTANCE_GOOD - DISTANCE_EXCELLENT)) * 0.2
    pytrunc ((WEIGHT_LOCATION : ℚ) * ratio)
  else if distance_km ≤ DISTANCE_ACCEPTABLE then
    let ratio := 1 - ((distance_km - DISTANCE_GOOD) /
      (DISTANCE_ACCEPTABLE - DISTANCE_GOOD)) * 0.4
    pytrunc ((WEIGHT_LOCATION : ℚ) * ratio * 0.8)
  else if distance_km ≤ DISTANCE_FAR then
    let ratio := 1 - (distance_km - DISTANCE_ACCEPTABLE) /
      (DISTANCE_FAR - DISTANCE_ACCEPTABLE)
    pytrunc ((WEIGHT_LOCATION : ℚ) * ratio * 0.4)
  else
    0

/-- MatchingEngineV1._score_cleanliness. -/
def score_cleanliness (seeker candidate : UserMatchProfile) : ℤ :=
  let pair := (seeker.cleanliness_level, candidate.cleanliness_level)
  let reverse_pair := (candidate.cleanliness_level, seeker.cleanliness_level)
  let compatibility :=
    dictGet CLEANLINESS_COMPATIBILITY pair
      (dictGet CLEANLINESS_COMPATIBILITY reverse_pair 0.5)
  pytrunc (compatibility * (WEIGHT_CLEANLINESS : ℚ))

/-- MatchingEngineV1._score_sleep_schedule. -/
def score_sleep_schedule (seeker candidate : UserMatchProfile) : ℤ :=
  let pair := (seeker.sleep_schedule, candidate.sleep_schedule)
  let reverse_pair := (candidate.sleep_schedule, seeker.sleep_schedule)
  let compatibility :=
    dictGet SLEEP_COMPATIBILITY pair
      (dictGet SLEEP_COMPATIBILITY reverse_pair 0.5)
  pytrunc (compatibility * (WEIGHT_SLEEP : ℚ))

/-- MatchingEngineV1._guest_frequency_value: mapping.get(frequency, 1). -/
def guest_frequency_value (frequency : String) : ℤ :=
  if frequency = "never" then 0
  else if frequency = "rarely" then 1
  else if frequency = "sometimes" then 2
  else if frequency = "often" then 3
  else 1

/-- MatchingEngineV1._score_lifestyle: sequential smoking, pets and guest
frequency sub-checks accumulating a score and a conflict list. -/
def score_lifestyle (seeker candidate : UserMatchProfile) :
    ℤ × List ConflictWarning :=
  let score0 : ℤ := 0
  let conflicts0 : List ConflictWarning := []
  let score1 := if seeker.smoking_ok = candidate.smoking_ok then score0 + 5 else score0
  let conflicts1 :=
    if seeker.smoking_ok = candidate.smoking_ok then conflicts0
    else if seeker.smoking_ok = false ∧ candidate.smoking_ok = true then
      conflicts0 ++ [ConflictWarning.smoking_conflict]
    else conflicts0
  let score2 := if seeker.pets_ok = candidate.pets_ok then score1 + 5 else score1
  let conflicts2 :=
    if seeker.pets_ok = candidate.pets_ok then conflicts1
    else if seeker.pets_ok = false ∧ candidate.pets_ok = true then
      conflicts1 ++ [ConflictWarning.pets_conflict]
    else conflicts1
  let guest_diff :=
    (guest_frequency_value seeker.guest_frequency -
      guest_frequency_value candidate.guest_frequency).natAbs
  let score3 :=
    if guest_diff = 0 then score2 + 5
    else if guest_diff = 1 then score2 + 3
    else score2
  let conflicts3 :=
    if guest_diff = 0 then conflicts2
    else if guest_diff = 1 then conflicts2
    else if 3 ≤ guest_diff then conflicts2 ++ [ConflictWarning.guest_frequency_conflict]
    else conflicts2
  (score3, conflicts3)

/-- MatchingEngineV1._score_availability: term-interest sets and their
intersection, rendered over lists. -/
def score_availability (seeker candidate : UserMatchProfile) : ℤ :=
  let seeker_terms : List String :=
    (if seeker.looking_for_short_term then ["short"] else []) ++
    (if seeker.looking_for_long_term then ["long"] else [])
  let candidate_terms : List String :=
    (if candidate.looking_for_short_term then ["short"] else []) ++
    (if candidate.looking_for_long_term then ["long"] else [])
  if seeker_terms.inter candidate_terms = [] then 0
  else WEIGHT_AVAILABILITY

/-- MatchingEngineV1._score_reputation. -/
def score_reputation (candidate : UserMatchProfile) : ℤ :=
  pytrunc (((candidate.reputation_score : ℚ) / 100) * (WEIGHT_REPUTATION : ℚ))

/-- Stable descending insertion of a pair by its second component:
an earlier element is placed before every already-present element whose
points do not exceed its own. -/
def insert_desc (x : MatchReason × ℤ) :
    List (MatchReason × ℤ) → List (MatchReason × ℤ)
  | [] => [x]
  | y :: ys => if y.2 ≤ x.2 then x :: y :: ys else y :: insert_desc x ys

/-- Stable descending sort by points, the exact output of the Python
reasons.sort call (Python list.sort is stable; a stable sort into
descending point order is unique, so this insertion sort reproduces it). -/
def sort_desc : List (MatchReason × ℤ) → List (MatchReason × ℤ)
  | [] => []
  | x :: xs => insert_desc x (sort_desc xs)

/-- Reason list accumulated by calculate_match, in source order:
budget, location, cleanliness, sleep schedule, lifestyle, availability. -/
def triggered_reasons (distance_km : ℚ) (seeker candidate : UserMatchProfile) :
    List (MatchReason × ℤ) :=
  (if 15 ≤ (score_budget seeker candidate).1 then
    [(MatchReason.budget_match, (score_budget seeker candidate).1)] else []) ++
  (if 20 ≤ score_location distance_km then
    [(MatchReason.location_close, score_location distance_km)] else []) ++
  (if 12 ≤ score_cleanliness seeker candidate then
    [(MatchReason.cleanliness_match, score_cleanliness seeker candidate)] else []) ++
  (if 8 ≤ score_sleep_schedule seeker candidate then
    [(MatchReason.sleep_schedule_match, score_sleep_schedule seeker candidate)] else []) ++
  (if 12 ≤ (score_lifestyle seeker candidate).1 then
    [(MatchReason.lifestyle_match, (score_lifestyle seeker candidate).1)] else []) ++
  (if 8 ≤ score_availability seeker candidate then
    [(MatchReason.availability_match, score_availability seeker candidate)] else [])

/-- Conflict list accumulated by calculate_match, in source order:
the budget, location, cleanliness and sleep elif branches, then the
lifestyle conflicts extension. -/
def triggered_conflicts (distance_km : ℚ) (seeker candidate : UserMatchProfile) :
    List ConflictWarning :=
  (if 15 ≤ (score_budget seeker candidate).1 then []
   else if (score_budget seeker candidate).1 < 10 then
    [ConflictWarning.budget_mismatch] else []) ++
  (if 20 ≤ score_location distance_km then []
   else if DISTANCE_ACCEPTABLE < distance_km then
    [ConflictWarning.location_far] else []) ++
  (if 12 ≤ score_cleanliness seeker candidate then []
   else if score_cleanliness seeker candidate < 6 then
    [ConflictWarning.cleanliness_conflict] else []) ++
  (if 8 ≤ score_sleep_schedule seeker candidate then []
   else if score_sleep_schedule seeker candidate < 4 then
    [ConflictWarning.sleep_conflict] else []) ++
  (score_lifestyle seeker candidate).2

/-- MatchingEngineV1.calculate_match.  The engine argument carries the
max_distance_km configuration, which the source stores in __init__ and
never reads afterwards; distance_km is the output of _calculate_distance
on the two profiles (see the module comment). -/
def calculate_match (e : MatchingEngineV1) (distance_km : ℚ)
    (seeker candidate : UserMatchProfile) : MatchResult :=
  let score :=
    (score_budget seeker candidate).1 +
    score_location distance_km +
    score_cleanliness seeker candidate +
    score_sleep_schedule seeker candidate +
    (score_lifestyle seeker candidate).1 +
    score_availability seeker candidate +
    score_reputation candidate
  { user_id := candidate.user_id
    score := score
    explanation :=
      { score := score
        top_reasons := (sort_desc (triggered_reasons distance_km seeker candidate)).take 3
        conflicts := triggered_conflicts distance_km seeker candidate
        distance_km := round2 distance_km
        budget_overlap := (score_budget seeker candidate).2 } }

/-- Budget scoring as the specification words it, for comparison with
score_budget: overlap_min is the max of the two budget_min values,
overlap_max the min of the two budget_max values; no overlap gives 0
points and tuple (0, 0); otherwise ratio = min(overlap_range / avg_range, 1)
with avg_range the mean of the two range widths and ratio 1 when
avg_range is 0, and points = truncate(ratio × 20). -/
def spec_budget (seeker candidate : UserMatchProfile) : ℤ × (ℤ × ℤ) :=
  let overlap_min := max seeker.budget_min candidate.budget_min
  let overlap_max := min seeker.budget_max candidate.budget_max
  if overlap_max < overlap_min then (0, (0, 0))
  else
    let overlap_range : ℚ := ((overlap_max - overlap_min : ℤ) : ℚ)
    let avg_range : ℚ := (((seeker.budget_max - seeker.budget_min : ℤ) : ℚ) +
      ((candidate.budget_max - candidate.budget_min : ℤ) : ℚ)) / 2
    let ratio : ℚ := if avg_range = 0 then 1 else min (overlap_range / avg_range) 1
    (pytrunc (ratio * 20), (overlap_min, overlap_max))

/-- Location scoring as the specification words it, for comparison with
score_location: four bands with the exact formulas of the claim. -/
def spec_location_points (d : ℚ) : ℤ :=
  if d ≤ 5 then 25
  else if d ≤ 15 then pytrunc (25 * (1 - ((d - 5) / 10) * 0.2))
  else if d ≤ 30 then pytrunc (25 * (1 - ((d - 15) / 15) * 0.4) * 0.8)
  else if d ≤ 50 then pytrunc (25 * (1 - (d - 30) / 20) * 0.4)
  else 0

/-- Fully populated sample profile used for concrete witnesses. -/
def baseProfile : UserMatchProfile :=
  { user_id := 1
    age := 25
    latitude := 37
    longitude := -122
    city := "sf"
    looking_for_short_term := true
    looking_for_long_term := true
    move_in_earliest := none
    move_in_latest := none
    budget_min := 1000
    budget_max := 1500
    cleanliness_level := "clean"
    sleep_schedule := "normal"
    smoking_ok := false
    drinking_ok := false
    pets_ok := false
    guest_frequency := "rarely"
    is_student := false
    is_working := true
    reputation_score := 80 }

/-- Engine with the default configuration value of 50.0. -/
def defaultEngine : MatchingEngineV1 :=
  { max_distance_km := 50 }

/-! Basic facts about pytrunc (Python int conversion). -/

theorem pytrunc_of_nonneg {q : ℚ} (h : 0 ≤ q) : pytrunc q = ⌊q⌋ := by
  unfold pytrunc
  rw [if_neg (not_lt.mpr h)]

theorem pytrunc_nonneg {q : ℚ} (h : 0 ≤ q) : 0 ≤ pytrunc q := by
  rw [pytrunc_of_nonneg h]
  exact Int.floor_nonneg.mpr h

theorem pytrunc_le_of_le {q : ℚ} {n : ℤ} (h0 : 0 ≤ q) (h : q ≤ (n : ℚ)) :
    pytrunc q ≤ n := by
  rw [pytrunc_of_nonneg h0]
  exact (Int.floor_le_floor h).trans_eq (Int.floor_intCast n)

theorem le_pytrunc_of_le {q : ℚ} {n : ℤ} (h0 : 0 ≤ (n : ℚ)) (h : (n : ℚ) ≤ q) :
    n ≤ pytrunc q := by
  rw [pytrunc_of_nonneg (h0.trans h)]
  exact (Int.floor_intCast n).symm.trans_le (Int.floor_le_floor h)

theorem pytrunc_mono {a b : ℚ} (h : a ≤ b) : pytrunc a ≤ pytrunc b := by
  unfold pytrunc
  rcases lt_or_le a 0 with ha | ha
  · rw [if_pos ha]
    rcases lt_or_le b 0 with hb | hb
    · rw [if_pos hb]
      have := Int.floor_le_floor (neg_le_neg h)
      omega
    · rw [if_neg (not_lt.mpr hb)]
      have h1 : (0 : ℤ) ≤ ⌊-a⌋ := Int.floor_nonneg.mpr (by linarith)
      have h2 : (0 : ℤ) ≤ ⌊b⌋ := Int.floor_nonneg.mpr hb
      omega
  · rw [if_neg (not_lt.mpr ha), if_neg (not_lt.mpr (ha.trans h))]
    exact Int.floor_le_floor h

theorem pytrunc_intCast (n : ℤ) : pytrunc (n : ℚ) = n := by
  unfold pytrunc
  rcases lt_or_le (n : ℚ) 0 with h | h
  · rw [if_pos h, ← Int.cast_neg, Int.floor_intCast]
    omega
  · rw [if_neg (not_lt.mpr h), Int.floor_intCast]

/-! Bounds for the dictionary lookups. -/

theorem dictGet_bounds {l : List ((String × String) × ℚ)} {k : String × String}
    {d : ℚ} (hl : ∀ p ∈ l, 0 ≤ p.2 ∧ p.2 ≤ 1) (h0 : 0 ≤ d) (h1 : d ≤ 1) :
    0 ≤ dictGet l k d ∧ dictGet l k d ≤ 1 := by
  induction l with
  | nil => exact ⟨h0, h1⟩
  | cons p rest ih =>
    obtain ⟨key, v⟩ := p
    rw [dictGet]
    split
    · exact hl (key, v) (List.mem_cons_self _ _)
    · exact ih fun q hq => hl q (List.mem_cons_of_mem _ hq)

/-! Bounds for each component score. -/

theorem score_budget_fst_bounds (seeker candidate : UserMatchProfile) :
    0 ≤ (score_budget seeker candidate).1 ∧
      (score_budget seeker candidate).1 ≤ WEIGHT_BUDGET := by
  simp only [score_budget]
  split
  · simp [WEIGHT_BUDGET]
  · rename_i hno
    rw [not_lt] at hno
    have h1 : seeker.budget_min ≤ max seeker.budget_min candidate.budget_min :=
      le_max_left _ _
    have h2 : min seeker.budget_max candidate.budget_max ≤ seeker.budget_max :=
      min_le_left _ _
    have h3 : candidate.budget_min ≤ max seeker.budget_min candidate.budget_min :=
      le_max_right _ _
    have h4 : min seeker.budget_max candidate.budget_max ≤ candidate.budget_max :=
      min_le_right _ _
    have hsr : (0 : ℚ) ≤ ((seeker.budget_max - seeker.budget_min : ℤ) : ℚ) := by
      have h : (0 : ℤ) ≤ seeker.budget_max - seeker.budget_min := by omega
      exact_mod_cast h
    have hcr : (0 : ℚ) ≤ ((candidate.budget_max - candidate.budget_min : ℤ) : ℚ) := by
      have h : (0 : ℤ) ≤ candidate.budget_max - candidate.budget_min := by omega
      exact_mod_cast h
    have hor : (0 : ℚ) ≤ ((min seeker.budget_max candidate.budget_max -
        max seeker.budget_min candidate.budget_min : ℤ) : ℚ) := by
      have h : (0 : ℤ) ≤ min seeker.budget_max candidate.budget_max -
        max seeker.budget_min candidate.budget_min := by omega
      exact_mod_cast h
    have havg : (0 : ℚ) ≤ (((seeker.budget_max - seeker.budget_min : ℤ) : ℚ) +
        ((candidate.budget_max - candidate.budget_min : ℤ) : ℚ)) / 2 :=
      div_nonneg (add_nonneg hsr hcr) (by norm_num)
    have hW : (0 : ℚ) ≤ ((WEIGHT_BUDGET : ℤ) : ℚ) := by norm_num [WEIGHT_BUDGET]
    dsimp only
    split
    · constructor
      · exact pytrunc_nonneg (by rw [one_mul]; exact hW)
      · exact pytrunc_le_of_le (by rw [one_mul]; exact hW) (by rw [one_mul])
    · have hrat0 : (0 : ℚ) ≤ min (((min seeker.budget_max candidate.budget_max -
          max seeker.budget_min candidate.budget_min : ℤ) : ℚ) /
          ((((seeker.budget_max - seeker.budget_min : ℤ) : ℚ) +
            ((candidate.budget_max - candidate.budget_min : ℤ) : ℚ)) / 2)) 1 :=
        le_min (div_nonneg hor havg) zero_le_one
      have hrat1 : min (((min seeker.budget_max candidate.budget_max -
          max seeker.budget_min candidate.budget_min : ℤ) : ℚ) /
          ((((seeker.budget_max - seeker.budget_min : ℤ) : ℚ) +
            ((candidate.budget_max - candidate.budget_min : ℤ) : ℚ)) / 2)) 1 ≤ 1 :=
        min_le_right _ _
      constructor
      · exact pytrunc_nonneg (mul_nonneg hrat0 hW)
      · refine pytrunc_le_of_le (mul_nonneg hrat0 hW) ?_
        calc _ ≤ 1 * ((WEIGHT_BUDGET : ℤ) : ℚ) :=
              mul_le_mul_of_nonneg_right hrat1 hW
          _ = _ := one_mul _

theorem pytrunc_mul_weight_bounds {x : ℚ} {W : ℤ} (h0 : 0 ≤ x) (h1 : x ≤ 1)
    (hW : 0 ≤ (W : ℚ)) :
    0 ≤ pytrunc (x * (W : ℚ)) ∧ pytrunc (x * (W : ℚ)) ≤ W := by
  refine ⟨pytrunc_nonneg (mul_nonneg h0 hW), pytrunc_le_of_le (mul_nonneg h0 hW) ?_⟩
  calc x * (W : ℚ) ≤ 1 * (W : ℚ) := mul_le_mul_of_nonneg_right h1 hW
    _ = (W : ℚ) := one_mul _

theorem score_location_bounds (d : ℚ) :
    0 ≤ score_location d ∧ score_location d ≤ WEIGHT_LOCATION := by
  have hW : ((WEIGHT_LOCATION : ℤ) : ℚ) = 25 := by norm_num [WEIGHT_LOCATION]
  simp only [score_location, DISTANCE_EXCELLENT, DISTANCE_GOOD,
    DISTANCE_ACCEPTABLE, DISTANCE_FAR]
  split_ifs with hd1 hd2 hd3 hd4
  · norm_num [WEIGHT_LOCATION]
  · rw [not_le] at hd1
    have e0 : (0 : ℚ) ≤ ((WEIGHT_LOCATION : ℤ) : ℚ) * (1 - (d - 5) / (15 - 5) * 0.2) := by
      rw [hW]
      norm_num
      linarith
    refine ⟨pytrunc_nonneg e0, pytrunc_le_of_le e0 ?_⟩
    rw [hW]
    norm_num
    linarith
  · rw [not_le] at hd1 hd2
    have e0 : (0 : ℚ) ≤ ((WEIGHT_LOCATION : ℤ) : ℚ) *
        (1 - (d - 15) / (30 - 15) * 0.4) * 0.8 := by
      rw [hW]
      norm_num
      linarith
    refine ⟨pytrunc_nonneg e0, pytrunc_le_of_le e0 ?_⟩
    rw [hW]
    norm_num
    linarith
  · rw [not_le] at hd1 hd2 hd3
    have e0 : (0 : ℚ) ≤ ((WEIGHT_LOCATION : ℤ) : ℚ) *
        (1 - (d - 30) / (50 - 30)) * 0.4 := by
      rw [hW]
      norm_num
      linarith
    refine ⟨pytrunc_nonneg e0, pytrunc_le_of_le e0 ?_⟩
    rw [hW]
    norm_num
    linarith
  · norm_num [WEIGHT_LOCATION]

theorem cleanliness_table_bounds :
    ∀ p ∈ CLEANLINESS_COMPATIBILITY, 0 ≤ p.2 ∧ p.2 ≤ 1 := by
  intro p hp
  fin_cases hp <;> norm_num

theorem sleep_table_bounds :
    ∀ p ∈ SLEEP_COMPATIBILITY, 0 ≤ p.2 ∧ p.2 ≤ 1 := by
  intro p hp
  fin_cases hp <;> norm_num

theorem score_cleanliness_bounds (seeker candidate : UserMatchProfile) :
    0 ≤ score_cleanliness seeker candidate ∧
      score_cleanliness seeker candidate ≤ WEIGHT_CLEANLINESS := by
  simp only [score_cleanliness]
  have hinner := dictGet_bounds cleanliness_table_bounds
    (k := (candidate.cleanliness_level, seeker.cleanliness_level))
    (d := 0.5) (by norm_num) (by norm_num)
  have houter := dictGet_bounds cleanliness_table_bounds
    (k := (seeker.cleanliness_level, candidate.cleanliness_level))
    hinner.1 hinner.2
  exact pytrunc_mul_weight_bounds houter.1 houter.2 (by norm_num [WEIGHT_CLEANLINESS])

theorem score_sleep_schedule_bounds (seeker candidate : UserMatchProfile) :
    0 ≤ score_sleep_schedule seeker candidate ∧
      score_sleep_schedule seeker candidate ≤ WEIGHT_SLEEP := by
  simp only [score_sleep_schedule]
  have hinner := dictGet_bounds sleep_table_bounds
    (k := (candidate.sleep_schedule, seeker.sleep_schedule))
    (d := 0.5) (by norm_num) (by norm_num)
  have houter := dictGet_bounds sleep_table_bounds
    (k := (seeker.sleep_schedule, candidate.sleep_schedule))
    hinner.1 hinner.2
  exact pytrunc_mul_weight_bounds houter.1 houter.2 (by norm_num [WEIGHT_SLEEP])

theorem score_lifestyle_fst_bounds (seeker candidate : UserMatchProfile) :
    0 ≤ (score_lifestyle seeker candidate).1 ∧
      (score_lifestyle seeker candidate).1 ≤ WEIGHT_LIFESTYLE := by
  simp only [score_lifestyle, WEIGHT_LIFESTYLE]
  split_ifs <;> norm_num

theorem score_availability_bounds (seeker candidate : UserMatchProfile) :
    0 ≤ score_availability seeker candidate ∧
      score_availability seeker candidate ≤ WEIGHT_AVAILABILITY := by
  simp only [score_availability]
  split_ifs <;> norm_num [WEIGHT_AVAILABILITY]

theorem score_reputation_bounds {candidate : UserMatchProfile}
    (h0 : 0 ≤ candidate.reputation_score) (h1 : candidate.reputation_score ≤ 100) :
    0 ≤ score_reputation candidate ∧ score_reputation candidate ≤ WEIGHT_REPUTATION := by
  simp only [score_reputation]
  have hq0 : (0 : ℚ) ≤ (candidate.reputation_score : ℚ) / 100 :=
    div_nonneg (by exact_mod_cast h0) (by norm_num)
  have hq1 : (candidate.reputation_score : ℚ) / 100 ≤ 1 := by
    rw [div_le_one (by norm_num)]
    exact_mod_cast h1
  exact pytrunc_mul_weight_bounds hq0 hq1 (by norm_num [WEIGHT_REPUTATION])

/-- C1: for every seeker and candidate profile with reputation_score in the
data-model range 0 to 100, calculate_match returns a total score in [0, 100];
the total is the sum of the seven component sub-scores, each component is
individually bounded below by 0 and above by its weight (20, 25, 15, 10, 15,
10, 5), and the weights sum to exactly 100. -/
theorem C1_score_bounds (e : MatchingEngineV1) (distance_km : ℚ)
    (seeker candidate : UserMatchProfile)
    (h0 : 0 ≤ candidate.reputation_score) (h1 : candidate.reputation_score ≤ 100) :
    (0 ≤ (calculate_match e distance_km seeker candidate).score ∧
      (calculate_match e distance_km seeker candidate).score ≤ 100) ∧
    (calculate_match e distance_km seeker candidate).score =
      (score_budget seeker candidate).1 + score_location distance_km +
      score_cleanliness seeker candidate + score_sleep_schedule seeker candidate +
      (score_lifestyle seeker candidate).1 + score_availability seeker candidate +
      score_reputation candidate ∧
    (0 ≤ (score_budget seeker candidate).1 ∧
      (score_budget seeker candidate).1 ≤ WEIGHT_BUDGET) ∧
    (0 ≤ score_location distance_km ∧ score_location distance_km ≤ WEIGHT_LOCATION) ∧
    (0 ≤ score_cleanliness seeker candidate ∧
      score_cleanliness seeker candidate ≤ WEIGHT_CLEANLINESS) ∧
    (0 ≤ score_sleep_schedule seeker candidate ∧
      score_sleep_schedule seeker candidate ≤ WEIGHT_SLEEP) ∧
    (0 ≤ (score_lifestyle seeker candidate).1 ∧
      (score_lifestyle seeker candidate).1 ≤ WEIGHT_LIFESTYLE) ∧
    (0 ≤ score_availability seeker candidate ∧
      score_availability seeker candidate ≤ WEIGHT_AVAILABILITY) ∧
    (0 ≤ score_reputation candidate ∧
      score_reputation candidate ≤ WEIGHT_REPUTATION) ∧
    WEIGHT_BUDGET + WEIGHT_LOCATION + WEIGHT_CLEANLINESS + WEIGHT_SLEEP +
      WEIGHT_LIFESTYLE + WEIGHT_AVAILABILITY + WEIGHT_REPUTATION = 100 := by
  have hb := score_budget_fst_bounds seeker candidate
  have hl := score_location_bounds distance_km
  have hc := score_cleanliness_bounds seeker candidate
  have hs := score_sleep_schedule_bounds seeker candidate
  have hf := score_lifestyle_fst_bounds seeker candidate
  have ha := score_availability_bounds seeker candidate
  have hr := score_reputation_bounds h0 h1
  have hsum : (calculate_match e distance_km seeker candidate).score =
      (score_budget seeker candidate).1 + score_location distance_km +
      score_cleanliness seeker candidate + score_sleep_schedule seeker candidate +
      (score_lifestyle seeker candidate).1 + score_availability seeker candidate +
      score_reputation candidate := rfl
  have hw : WEIGHT_BUDGET + WEIGHT_LOCATION + WEIGHT_CLEANLINESS + WEIGHT_SLEEP +
      WEIGHT_LIFESTYLE + WEIGHT_AVAILABILITY + WEIGHT_REPUTATION = 100 := by
    norm_num [WEIGHT_BUDGET, WEIGHT_LOCATION, WEIGHT_CLEANLINESS, WEIGHT_SLEEP,
      WEIGHT_LIFESTYLE, WEIGHT_AVAILABILITY, WEIGHT_REPUTATION]
  refine ⟨⟨?_, ?_⟩, hsum, hb, hl, hc, hs, hf, ha, hr, hw⟩
  · rw [hsum]
    have := hb.1
    have := hl.1
    have := hc.1
    have := hs.1
    have := hf.1
    have := ha.1
    have := hr.1
    omega
  · rw [hsum]
    have := hb.2
    have := hl.2
    have := hc.2
    have := hs.2
    have := hf.2
    have := ha.2
    have := hr.2
    simp only [WEIGHT_BUDGET, WEIGHT_LOCATION, WEIGHT_CLEANLINESS, WEIGHT_SLEEP,
      WEIGHT_LIFESTYLE, WEIGHT_AVAILABILITY, WEIGHT_REPUTATION] at *
    omega

/-- Witness for C1: the reputation hypotheses hold for the sample candidate
and the total score of a concrete match lies in [0, 100]. -/
theorem C1_score_bounds_witness :
    0 ≤ ({ baseProfile with user_id := 2 } : UserMatchProfile).reputation_score ∧
    ({ baseProfile with user_id := 2 } : UserMatchProfile).reputation_score ≤ 100 ∧
    0 ≤ (calculate_match defaultEngine 0 baseProfile
      { baseProfile with user_id := 2 }).score ∧
    (calculate_match defaultEngine 0 baseProfile
      { baseProfile with user_id := 2 }).score ≤ 100 :=
  ⟨by norm_num [baseProfile], by norm_num [baseProfile],
    (C1_score_bounds defaultEngine 0 baseProfile { baseProfile with user_id := 2 }
      (by norm_num [baseProfile]) (by norm_num [baseProfile])).1.1,
    (C1_score_bounds defaultEngine 0 baseProfile { baseProfile with user_id := 2 }
      (by norm_num [baseProfile]) (by norm_num [baseProfile])).1.2⟩

theorem score_lifestyle_snd_subset (seeker candidate : UserMatchProfile) :
    ∀ w ∈ (score_lifestyle seeker candidate).2,
      w = ConflictWarning.smoking_conflict ∨ w = ConflictWarning.pets_conflict ∨
      w = ConflictWarning.guest_frequency_conflict := by
  intro w hw
  simp only [score_lifestyle] at hw
  split_ifs at hw <;> simp_all <;> tauto

theorem budget_mismatch_not_mem_lifestyle (seeker candidate : UserMatchProfile) :
    ConflictWarning.budget_mismatch ∉ (score_lifestyle seeker candidate).2 := by
  intro hw
  rcases score_lifestyle_snd_subset seeker candidate _ hw with h | h | h <;> simp at h

theorem location_far_not_mem_lifestyle (seeker candidate : UserMatchProfile) :
    ConflictWarning.location_far ∉ (score_lifestyle seeker candidate).2 := by
  intro hw
  rcases score_lifestyle_snd_subset seeker candidate _ hw with h | h | h <;> simp at h

theorem conflicts_eq_triggered (e : MatchingEngineV1) (distance_km : ℚ)
    (seeker candidate : UserMatchProfile) :
    (calculate_match e distance_km seeker candidate).explanation.conflicts =
      triggered_conflicts distance_km seeker candidate := rfl

/-- C2: the budget component takes overlap_min as the max of the budget_min
values and overlap_max as the min of the budget_max values, yields 0 points
and tuple (0, 0) when overlap_max < overlap_min, and otherwise
points = truncate(min(overlap_range / avg_range, 1) × 20) with ratio 1 when
avg_range is 0 (score_budget coincides with the spec formula everywhere);
budget_match is emitted exactly when points ≥ 15 and budget_mismatch exactly
when points < 10; and seeker budget 1000 to 1500 against candidate 1200 to
1800 yields overlap (1200, 1500) and 10 points. -/
theorem C2_budget_component (e : MatchingEngineV1) (distance_km : ℚ)
    (seeker candidate : UserMatchProfile) :
    score_budget seeker candidate = spec_budget seeker candidate ∧
    (MatchReason.budget_match ∈
        (triggered_reasons distance_km seeker candidate).map Prod.fst ↔
      15 ≤ (score_budget seeker candidate).1) ∧
    (ConflictWarning.budget_mismatch ∈
        (calculate_match e distance_km seeker candidate).explanation.conflicts ↔
      (score_budget seeker candidate).1 < 10) ∧
    score_budget baseProfile
        { baseProfile with user_id := 2, budget_min := 1200, budget_max := 1800 } =
      (10, (1200, 1500)) := by
  refine ⟨?_, ?_, ?_, ?_⟩
  · simp only [score_budget, spec_budget]
    split_ifs with h1 h2
    · rfl
    · norm_num [WEIGHT_BUDGET]
    · norm_num [WEIGHT_BUDGET]
  · simp only [triggered_reasons, List.map_append, List.mem_append]
    split_ifs <;> simp_all
  · rw [conflicts_eq_triggered]
    have hnl := budget_mismatch_not_mem_lifestyle seeker candidate
    simp only [triggered_conflicts, List.mem_append]
    split_ifs <;> simp_all <;> omega
  · norm_num +decide [score_budget, baseProfile, pytrunc, WEIGHT_BUDGET]

/-- Witness for C2: on the concrete disjoint-budget pair the mismatch
conflict is present, through the iff of the theorem. -/
theorem C2_budget_component_witness :
    ConflictWarning.budget_mismatch ∈
      (calculate_match defaultEngine 0 baseProfile
        { baseProfile with user_id := 2, budget_min := 2000, budget_max := 2500 }).explanation.conflicts :=
  (C2_budget_component defaultEngine 0 baseProfile
    { baseProfile with user_id := 2, budget_min := 2000, budget_max := 2500 }).2.2.1.mpr
    (by norm_num [score_budget, baseProfile])

/-- C3: the location sub-score follows the four-band mapping of the claim
(score_location coincides with spec_location_points everywhere); the reason
location_close is emitted exactly when the points are at least 20, and the
conflict location_far exactly when the points are below 20 and the distance
exceeds 30 km. -/
theorem C3_location_bands (e : MatchingEngineV1) (d : ℚ)
    (seeker candidate : UserMatchProfile) :
    score_location d = spec_location_points d ∧
    (MatchReason.location_close ∈
        (triggered_reasons d seeker candidate).map Prod.fst ↔
      20 ≤ score_location d) ∧
    (ConflictWarning.location_far ∈
        (calculate_match e d seeker candidate).explanation.conflicts ↔
      (score_location d < 20 ∧ 30 < d)) := by
  refine ⟨?_, ?_, ?_⟩
  · simp only [score_location, spec_location_points, DISTANCE_EXCELLENT,
      DISTANCE_GOOD, DISTANCE_ACCEPTABLE, DISTANCE_FAR]
    split_ifs with h1 h2 h3 h4
    · norm_num [WEIGHT_LOCATION]
    · congr 1
      norm_num [WEIGHT_LOCATION]
    · congr 1
      push_cast [WEIGHT_LOCATION]
      ring
    · congr 1
      push_cast [WEIGHT_LOCATION]
      ring
    · rfl
  · simp only [triggered_reasons, List.map_append, List.mem_append]
    split_ifs <;> simp_all
  · rw [conflicts_eq_triggered]
    have hnl := location_far_not_mem_lifestyle seeker candidate
    simp only [triggered_conflicts, List.mem_append, DISTANCE_ACCEPTABLE]
    split_ifs <;> simp_all

/-- Witness for C3: the band formula and the far-distance conflict on a
concrete 40 km distance. -/
theorem C3_location_bands_witness :
    score_location 40 = spec_location_points 40 ∧
    ConflictWarning.location_far ∈
      (calculate_match defaultEngine 40 baseProfile
        { baseProfile with user_id := 2 }).explanation.conflicts :=
  ⟨(C3_location_bands defaultEngine 40 baseProfile
      { baseProfile with user_id := 2 }).1,
   (C3_location_bands defaultEngine 40 baseProfile
      { baseProfile with user_id := 2 }).2.2.mpr
    ⟨by norm_num [score_location, DISTANCE_EXCELLENT, DISTANCE_GOOD,
        DISTANCE_ACCEPTABLE, DISTANCE_FAR, pytrunc, WEIGHT_LOCATION],
     by norm_num⟩⟩

/-! Facts about the stable descending sort. -/

theorem insert_desc_perm (x : MatchReason × ℤ) (l : List (MatchReason × ℤ)) :
    (insert_desc x l).Perm (x :: l) := by
  induction l with
  | nil => simp [insert_desc]
  | cons y ys ih =>
    rw [insert_desc]
    split
    · exact List.Perm.refl _
    · exact (ih.cons y).trans (List.Perm.swap x y ys)

theorem sort_desc_perm (l : List (MatchReason × ℤ)) : (sort_desc l).Perm l := by
  induction l with
  | nil => simp [sort_desc]
  | cons x xs ih =>
    rw [sort_desc]
    exact (insert_desc_perm x (sort_desc xs)).trans (ih.cons x)

theorem insert_desc_pairwise {x : MatchReason × ℤ} {l : List (MatchReason × ℤ)}
    (hl : l.Pairwise (fun a b => b.2 ≤ a.2)) :
    (insert_desc x l).Pairwise (fun a b => b.2 ≤ a.2) := by
  induction l with
  | nil => simp [insert_desc]
  | cons y ys ih =>
    rw [insert_desc]
    rw [List.pairwise_cons] at hl
    split
    · rename_i hxy
      rw [List.pairwise_cons]
      refine ⟨?_, List.pairwise_cons.mpr hl⟩
      intro z hz
      rcases List.mem_cons.mp hz with rfl | hz
      · exact hxy
      · exact (hl.1 z hz).trans hxy
    · rename_i hxy
      rw [not_le] at hxy
      rw [List.pairwise_cons]
      refine ⟨?_, ih hl.2⟩
      intro z hz
      rcases List.mem_cons.mp ((insert_desc_perm x ys).mem_iff.mp hz) with rfl | hz
      · exact hxy.le
      · exact hl.1 z hz

theorem sort_desc_pairwise (l : List (MatchReason × ℤ)) :
    (sort_desc l).Pairwise (fun a b => b.2 ≤ a.2) := by
  induction l with
  | nil => simp [sort_desc]
  | cons x xs ih =>
    rw [sort_desc]
    exact insert_desc_pairwise ih

/-! Diagonal lookups in the sleep table: equal keys give coefficient 1 when
listed, the supplied default otherwise. -/

theorem sleep_dictGet_diag (x : String) (d : ℚ) :
    dictGet SLEEP_COMPATIBILITY (x, x) d = 1 ∨
      dictGet SLEEP_COMPATIBILITY (x, x) d = d := by
  simp only [SLEEP_COMPATIBILITY, dictGet, Prod.mk.injEq]
  split_ifs with h1 h2 h3 h4 h5 h6
  · exact Or.inl rfl
  · obtain ⟨rfl, h⟩ := h2
    exact absurd h (by decide)
  · obtain ⟨rfl, h⟩ := h3
    exact absurd h (by decide)
  · exact Or.inl rfl
  · obtain ⟨rfl, h⟩ := h5
    exact absurd h (by decide)
  · exact Or.inl rfl
  · exact Or.inr rfl

theorem score_sleep_schedule_diag {seeker candidate : UserMatchProfile}
    (h : seeker.sleep_schedule = candidate.sleep_schedule) :
    score_sleep_schedule seeker candidate = 10 ∨
      score_sleep_schedule seeker candidate = 5 := by
  simp only [score_sleep_schedule, ← h]
  rcases sleep_dictGet_diag seeker.sleep_schedule
      (dictGet SLEEP_COMPATIBILITY (seeker.sleep_schedule, seeker.sleep_schedule) 0.5)
    with h1 | h1
  · rw [h1]
    left
    norm_num [pytrunc, WEIGHT_SLEEP]
  · rw [h1]
    rcases sleep_dictGet_diag seeker.sleep_schedule 0.5 with h2 | h2
    · rw [h2]
      left
      norm_num [pytrunc, WEIGHT_SLEEP]
    · rw [h2]
      right
      norm_num [pytrunc, WEIGHT_SLEEP]

/-! Component values on two profiles that agree on every field except
user_id (the distance between equal coordinates is 0). -/

theorem score_budget_identical {p : UserMatchProfile} (uid : ℤ)
    (hbudget : p.budget_min ≤ p.budget_max) :
    (score_budget p { p with user_id := uid }).1 = 20 := by
  simp only [score_budget]
  rw [max_self, min_self, if_neg (not_lt.mpr hbudget)]
  have heq : (((p.budget_max - p.budget_min : ℤ) : ℚ) +
      ((p.budget_max - p.budget_min : ℤ) : ℚ)) / 2 =
      ((p.budget_max - p.budget_min : ℤ) : ℚ) := by ring
  rw [heq]
  by_cases h0 : ((p.budget_max - p.budget_min : ℤ) : ℚ) = 0
  · rw [if_pos h0]
    norm_num [pytrunc, WEIGHT_BUDGET]
  · rw [if_neg h0, div_self h0]
    norm_num [pytrunc, WEIGHT_BUDGET]

theorem score_cleanliness_identical {p : UserMatchProfile} (uid : ℤ)
    (hclean : p.cleanliness_level = "very_clean" ∨ p.cleanliness_level = "clean" ∨
      p.cleanliness_level = "moderate" ∨ p.cleanliness_level = "relaxed") :
    score_cleanliness p { p with user_id := uid } = 15 := by
  simp only [score_cleanliness]
  rcases hclean with h | h | h | h <;> rw [h] <;>
    norm_num +decide [dictGet, CLEANLINESS_COMPATIBILITY, pytrunc, WEIGHT_CLEANLINESS]

theorem score_lifestyle_identical (p : UserMatchProfile) (uid : ℤ) :
    score_lifestyle p { p with user_id := uid } = (15, []) := by
  simp only [score_lifestyle]
  dsimp only
  norm_num [sub_self]

theorem score_availability_identical {p : UserMatchProfile} (uid : ℤ)
    (hterm : p.looking_for_short_term = true ∨ p.looking_for_long_term = true) :
    score_availability p { p with user_id := uid } = 10 := by
  simp only [score_availability]
  dsimp only
  rcases hterm with h | h <;>
    cases hs : p.looking_for_short_term <;> cases hl : p.looking_for_long_term <;>
      simp_all +decide [List.inter, WEIGHT_AVAILABILITY]

/-- Counterexample to C4 as stated: pairs of profiles agreeing on every field
except user_id for which calculate_match does not return score at least 90
with empty conflicts.  The four instances break the claim through, in turn,
no sought term plus low reputation, an inverted budget range, an
unrecognized cleanliness level plus low reputation, and a negative
reputation score. -/
theorem C4_identical_profiles_counterexample :
    (calculate_match defaultEngine 0
      { baseProfile with looking_for_short_term := false, looking_for_long_term := false, reputation_score := 0 }
      { baseProfile with user_id := 2, looking_for_short_term := false, looking_for_long_term := false, reputation_score := 0 }).score < 90 ∧
    (calculate_match defaultEngine 0
      { baseProfile with budget_min := 1500, budget_max := 1000 }
      { baseProfile with user_id := 2, budget_min := 1500, budget_max := 1000 }).explanation.conflicts ≠ [] ∧
    (calculate_match defaultEngine 0
      { baseProfile with cleanliness_level := "spotless", reputation_score := 0 }
      { baseProfile with user_id := 2, cleanliness_level := "spotless", reputation_score := 0 }).score < 90 ∧
    (calculate_match defaultEngine 0
      { baseProfile with reputation_score := -200 }
      { baseProfile with user_id := 2, reputation_score := -200 }).score < 90 := by
  refine ⟨?_, ?_, ?_, ?_⟩ <;>
    norm_num +decide [calculate_match, score_budget, score_location,
      score_cleanliness, score_sleep_schedule, score_lifestyle,
      score_availability, score_reputation, guest_frequency_value, dictGet,
      CLEANLINESS_COMPATIBILITY, SLEEP_COMPATIBILITY, WEIGHT_BUDGET,
      WEIGHT_LOCATION, WEIGHT_CLEANLINESS, WEIGHT_SLEEP, WEIGHT_LIFESTYLE,
      WEIGHT_AVAILABILITY, WEIGHT_REPUTATION, DISTANCE_EXCELLENT,
      DISTANCE_GOOD, DISTANCE_ACCEPTABLE, DISTANCE_FAR, pytrunc,
      triggered_conflicts, baseProfile, List.inter]

/-- C4 amended: two profiles that agree on every field except user_id score
at least 90 with at least 3 top reasons and no conflicts, provided the
common field values are well formed: a recognized cleanliness level, a
non-inverted budget range, at least one sought term, and a nonnegative
reputation score (the counterexample shows the claim fails without each of
these provisos; the unmodified claim admits profiles violating them). -/
theorem C4_identical_profiles_amended (e : MatchingEngineV1)
    (p : UserMatchProfile) (uid : ℤ)
    (hclean : p.cleanliness_level = "very_clean" ∨ p.cleanliness_level = "clean" ∨
      p.cleanliness_level = "moderate" ∨ p.cleanliness_level = "relaxed")
    (hbudget : p.budget_min ≤ p.budget_max)
    (hterm : p.looking_for_short_term = true ∨ p.looking_for_long_term = true)
    (hrep : 0 ≤ p.reputation_score) :
    90 ≤ (calculate_match e 0 p { p with user_id := uid }).score ∧
    3 ≤ (calculate_match e 0 p { p with user_id := uid }).explanation.top_reasons.length ∧
    (calculate_match e 0 p { p with user_id := uid }).explanation.conflicts = [] := by
  have hb := score_budget_identical uid hbudget
  have hl : score_location (0 : ℚ) = 25 := by
    norm_num [score_location, DISTANCE_EXCELLENT, WEIGHT_LOCATION]
  have hc := score_cleanliness_identical uid hclean
  have hs := @score_sleep_schedule_diag p { p with user_id := uid } rfl
  have hf := score_lifestyle_identical p uid
  have hf1 : (score_lifestyle p { p with user_id := uid }).1 = 15 := by rw [hf]
  have hf2 : (score_lifestyle p { p with user_id := uid }).2 = [] := by rw [hf]
  have ha := score_availability_identical uid hterm
  have hr : 0 ≤ score_reputation { p with user_id := uid } := by
    simp only [score_reputation]
    exact pytrunc_nonneg (mul_nonneg
      (div_nonneg (by exact_mod_cast hrep) (by norm_num))
      (by norm_num [WEIGHT_REPUTATION]))
  refine ⟨?_, ?_, ?_⟩
  · have hsum : (calculate_match e 0 p { p with user_id := uid }).score =
        (score_budget p { p with user_id := uid }).1 + score_location 0 +
        score_cleanliness p { p with user_id := uid } +
        score_sleep_schedule p { p with user_id := uid } +
        (score_lifestyle p { p with user_id := uid }).1 +
        score_availability p { p with user_id := uid } +
        score_reputation { p with user_id := uid } := rfl
    rw [hsum, hb, hl, hc, hf1, ha]
    rcases hs with h | h <;> rw [h] <;> omega
  · have htop : (calculate_match e 0 p { p with user_id := uid }).explanation.top_reasons =
        (sort_desc (triggered_reasons 0 p { p with user_id := uid })).take 3 := rfl
    have hlen : 3 ≤ (triggered_reasons 0 p { p with user_id := uid }).length := by
      simp only [triggered_reasons, hb, hl, hc, hf1, ha]
      rcases hs with h | h <;> rw [h] <;> norm_num
    rw [htop, List.length_take, (sort_desc_perm _).length_eq]
    omega
  · rw [conflicts_eq_triggered]
    simp only [triggered_conflicts, hb, hl, hc, hf2, DISTANCE_ACCEPTABLE]
    rcases hs with h | h <;> rw [h] <;> norm_num

/-- Witness for C4 amended: the provisos hold for the sample profile and the
conclusion follows at that input. -/
theorem C4_identical_profiles_amended_witness :
    (baseProfile.cleanliness_level = "very_clean" ∨
      baseProfile.cleanliness_level = "clean" ∨
      baseProfile.cleanliness_level = "moderate" ∨
      baseProfile.cleanliness_level = "relaxed") ∧
    baseProfile.budget_min ≤ baseProfile.budget_max ∧
    (baseProfile.looking_for_short_term = true ∨
      baseProfile.looking_for_long_term = true) ∧
    0 ≤ baseProfile.reputation_score ∧
    90 ≤ (calculate_match defaultEngine 0 baseProfile
      { baseProfile with user_id := 2 }).score ∧
    (calculate_match defaultEngine 0 baseProfile
      { baseProfile with user_id := 2 }).explanation.conflicts = [] :=
  ⟨Or.inr (Or.inl rfl), by norm_num [baseProfile], Or.inl rfl,
    by norm_num [baseProfile],
    (C4_identical_profiles_amended defaultEngine baseProfile 2
      (Or.inr (Or.inl rfl)) (by norm_num [baseProfile]) (Or.inl rfl)
      (by norm_num [baseProfile])).1,
    (C4_identical_profiles_amended defaultEngine baseProfile 2
      (Or.inr (Or.inl rfl)) (by norm_num [baseProfile]) (Or.inl rfl)
      (by norm_num [baseProfile])).2.2⟩

/-- C5: holding the seeker and every other candidate field fixed, raising the
candidate reputation_score never lowers the total score: the reputation
component is truncate((reputation_score / 100) × 5), no other component reads
reputation_score, and truncation toward zero is monotone. -/
theorem C5_reputation_monotone (e : MatchingEngineV1) (distance_km : ℚ)
    (seeker c1 : UserMatchProfile) (r : ℤ)
    (hr : c1.reputation_score ≤ r) :
    (calculate_match e distance_km seeker c1).score ≤
      (calculate_match e distance_km seeker
        { c1 with reputation_score := r }).score := by
  have hsum1 : (calculate_match e distance_km seeker c1).score =
      (score_budget seeker c1).1 + score_location distance_km +
      score_cleanliness seeker c1 + score_sleep_schedule seeker c1 +
      (score_lifestyle seeker c1).1 + score_availability seeker c1 +
      score_reputation c1 := rfl
  have hsum2 : (calculate_match e distance_km seeker
      { c1 with reputation_score := r }).score =
      (score_budget seeker c1).1 + score_location distance_km +
      score_cleanliness seeker c1 + score_sleep_schedule seeker c1 +
      (score_lifestyle seeker c1).1 + score_availability seeker c1 +
      score_reputation { c1 with reputation_score := r } := rfl
  rw [hsum1, hsum2]
  have hrep : score_reputation c1 ≤
      score_reputation { c1 with reputation_score := r } := by
    simp only [score_reputation]
    apply pytrunc_mono
    apply mul_le_mul_of_nonneg_right
    · apply (div_le_div_iff_of_pos_right (by norm_num : (0 : ℚ) < 100)).mpr
      exact_mod_cast hr
    · norm_num [WEIGHT_REPUTATION]
  omega

/-- Witness for C5: raising the sample candidate reputation from 80 to 100
does not lower the total. -/
theorem C5_reputation_monotone_witness :
    baseProfile.reputation_score ≤ 100 ∧
    (calculate_match defaultEngine 0 baseProfile baseProfile).score ≤
      (calculate_match defaultEngine 0 baseProfile
        { baseProfile with reputation_score := 100 }).score :=
  ⟨by norm_num [baseProfile],
    C5_reputation_monotone defaultEngine 0 baseProfile baseProfile 100
      (by norm_num [baseProfile])⟩

/-- Counterexample to C6 as stated: two profiles agreeing on every field
except user_id and reputation_score, with reputation scores 50 and 51,
whose two match orders return equal total scores (both reputations truncate
to the same 2-point bonus). -/
theorem C6_reputation_asymmetry_counterexample :
    ({ baseProfile with reputation_score := 50 } : UserMatchProfile).reputation_score ≠
      ({ baseProfile with user_id := 2, reputation_score := 51 } : UserMatchProfile).reputation_score ∧
    (calculate_match defaultEngine 0
        { baseProfile with reputation_score := 50 }
        { baseProfile with user_id := 2, reputation_score := 51 }).score =
      (calculate_match defaultEngine 0
        { baseProfile with user_id := 2, reputation_score := 51 }
        { baseProfile with reputation_score := 50 }).score := by
  constructor
  · norm_num
  · norm_num +decide [calculate_match, score_budget, score_location,
      score_cleanliness, score_sleep_schedule, score_lifestyle,
      score_availability, score_reputation, guest_frequency_value, dictGet,
      CLEANLINESS_COMPATIBILITY, SLEEP_COMPATIBILITY, WEIGHT_BUDGET,
      WEIGHT_LOCATION, WEIGHT_CLEANLINESS, WEIGHT_SLEEP, WEIGHT_LIFESTYLE,
      WEIGHT_AVAILABILITY, WEIGHT_REPUTATION, DISTANCE_EXCELLENT,
      DISTANCE_GOOD, DISTANCE_ACCEPTABLE, DISTANCE_FAR, pytrunc,
      baseProfile, List.inter]

/-- C6 amended: for two profiles agreeing on every field except user_id and
reputation_score, the difference of the two ordered total scores equals the
difference of the two truncated reputation bonuses, so the totals differ
exactly when the truncated bonuses truncate((reputation_score / 100) × 5)
differ, not whenever the raw reputation scores differ. -/
theorem C6_reputation_asymmetry_amended (e : MatchingEngineV1)
    (distance_km : ℚ) (A : UserMatchProfile) (uid r : ℤ) :
    (calculate_match e distance_km A
        { A with user_id := uid, reputation_score := r }).score -
      (calculate_match e distance_km
        { A with user_id := uid, reputation_score := r } A).score =
      score_reputation { A with user_id := uid, reputation_score := r } -
        score_reputation A ∧
    ((calculate_match e distance_km A
        { A with user_id := uid, reputation_score := r }).score ≠
      (calculate_match e distance_km
        { A with user_id := uid, reputation_score := r } A).score ↔
      score_reputation { A with user_id := uid, reputation_score := r } ≠
        score_reputation A) := by
  have hsum1 : (calculate_match e distance_km A
      { A with user_id := uid, reputation_score := r }).score =
      (score_budget A A).1 + score_location distance_km +
      score_cleanliness A A + score_sleep_schedule A A +
      (score_lifestyle A A).1 + score_availability A A +
      score_reputation { A with user_id := uid, reputation_score := r } := rfl
  have hsum2 : (calculate_match e distance_km
      { A with user_id := uid, reputation_score := r } A).score =
      (score_budget A A).1 + score_location distance_km +
      score_cleanliness A A + score_sleep_schedule A A +
      (score_lifestyle A A).1 + score_availability A A +
      score_reputation A := rfl
  rw [hsum1, hsum2]
  constructor
  · ring
  · omega

/-- Witness for C6 amended: reputations 80 and 100 truncate to different
bonuses, so the two ordered totals differ. -/
theorem C6_reputation_asymmetry_amended_witness :
    (calculate_match defaultEngine 0 baseProfile
        { baseProfile with user_id := 2, reputation_score := 100 }).score ≠
      (calculate_match defaultEngine 0
        { baseProfile with user_id := 2, reputation_score := 100 }
        baseProfile).score :=
  (C6_reputation_asymmetry_amended defaultEngine 0 baseProfile 2 100).2.mpr
    (by norm_num [score_reputation, baseProfile, pytrunc, WEIGHT_REPUTATION])

/-- C7: the constructor parameter max_distance_km does not influence any
component score, reason, conflict, or reported distance: engines built with
any two values return identical results on every input. -/
theorem C7_max_distance_noninterference (m1 m2 : ℚ) (distance_km : ℚ)
    (seeker candidate : UserMatchProfile) :
    calculate_match { max_distance_km := m1 } distance_km seeker candidate =
      calculate_match { max_distance_km := m2 } distance_km seeker candidate := rfl

theorem guest_conflict_mem_triggered (distance_km : ℚ)
    (seeker candidate : UserMatchProfile) :
    ConflictWarning.guest_frequency_conflict ∈
        triggered_conflicts distance_km seeker candidate ↔
      ConflictWarning.guest_frequency_conflict ∈
        (score_lifestyle seeker candidate).2 := by
  simp only [triggered_conflicts, List.mem_append]
  split_ifs <;> simp

/-- C8: with guest frequencies mapped through never 0, rarely 1, sometimes 2,
often 3, an absolute difference of 0 adds exactly 5 points to the lifestyle
score, a difference of 1 adds exactly 3 points, a difference of at least 3
adds no points and emits guest_frequency_conflict, and a difference of
exactly 2 adds no points and emits no conflict: the guest contribution is
the if-chain below and the conflict is present, both in the lifestyle
component and in the final result, exactly when the difference is 3 or
more. -/
theorem C8_guest_frequency (e : MatchingEngineV1) (distance_km : ℚ)
    (seeker candidate : UserMatchProfile) :
    (score_lifestyle seeker candidate).1 =
      (if seeker.smoking_ok = candidate.smoking_ok then 5 else 0) +
      (if seeker.pets_ok = candidate.pets_ok then 5 else 0) +
      (if (guest_frequency_value seeker.guest_frequency -
          guest_frequency_value candidate.guest_frequency).natAbs = 0 then 5
        else if (guest_frequency_value seeker.guest_frequency -
          guest_frequency_value candidate.guest_frequency).natAbs = 1 then 3
        else 0) ∧
    (ConflictWarning.guest_frequency_conflict ∈
        (score_lifestyle seeker candidate).2 ↔
      3 ≤ (guest_frequency_value seeker.guest_frequency -
        guest_frequency_value candidate.guest_frequency).natAbs) ∧
    (ConflictWarning.guest_frequency_conflict ∈
        (calculate_match e distance_km seeker candidate).explanation.conflicts ↔
      3 ≤ (guest_frequency_value seeker.guest_frequency -
        guest_frequency_value candidate.guest_frequency).natAbs) := by
  have h1 : (score_lifestyle seeker candidate).1 =
      (if seeker.smoking_ok = candidate.smoking_ok then 5 else 0) +
      (if seeker.pets_ok = candidate.pets_ok then 5 else 0) +
      (if (guest_frequency_value seeker.guest_frequency -
          guest_frequency_value candidate.guest_frequency).natAbs = 0 then 5
        else if (guest_frequency_value seeker.guest_frequency -
          guest_frequency_value candidate.guest_frequency).natAbs = 1 then 3
        else 0) := by
    simp only [score_lifestyle]
    split_ifs <;> norm_num
  have h2 : ConflictWarning.guest_frequency_conflict ∈
      (score_lifestyle seeker candidate).2 ↔
      3 ≤ (guest_frequency_value seeker.guest_frequency -
        guest_frequency_value candidate.guest_frequency).natAbs := by
    simp only [score_lifestyle]
    split_ifs <;> simp_all
  refine ⟨h1, h2, ?_⟩
  rw [conflicts_eq_triggered]
  exact (guest_conflict_mem_triggered distance_km seeker candidate).trans h2

/-- Witness for C8: guest frequencies never and often differ by 3 and the
conflict is present in the final result. -/
theorem C8_guest_frequency_witness :
    ConflictWarning.guest_frequency_conflict ∈
      (calculate_match defaultEngine 0
        { baseProfile with guest_frequency := "never" }
        { baseProfile with user_id := 2, guest_frequency := "often" }).explanation.conflicts :=
  (C8_guest_frequency defaultEngine 0
    { baseProfile with guest_frequency := "never" }
    { baseProfile with user_id := 2, guest_frequency := "often" }).2.2.mpr
    (by norm_num +decide [guest_frequency_value, baseProfile])

/-- C9: top_reasons keeps at most 3 entries, is sorted with points
non-increasing, contains only triggered reasons, any triggered reason left
out has points at most those of every retained entry, and the conflicts list
is exactly the full triggered-conflict list with no cap. -/
theorem C9_top_reasons (e : MatchingEngineV1) (distance_km : ℚ)
    (seeker candidate : UserMatchProfile) :
    (calculate_match e distance_km seeker candidate).explanation.top_reasons.length ≤ 3 ∧
    (calculate_match e distance_km seeker candidate).explanation.top_reasons.Pairwise
      (fun a b => b.2 ≤ a.2) ∧
    (∀ x ∈ (calculate_match e distance_km seeker candidate).explanation.top_reasons,
      x ∈ triggered_reasons distance_km seeker candidate) ∧
    (∀ x ∈ triggered_reasons distance_km seeker candidate,
      x ∉ (calculate_match e distance_km seeker candidate).explanation.top_reasons →
      ∀ y ∈ (calculate_match e distance_km seeker candidate).explanation.top_reasons,
        x.2 ≤ y.2) ∧
    (calculate_match e distance_km seeker candidate).explanation.conflicts =
      triggered_conflicts distance_km seeker candidate := by
  have htop : (calculate_match e distance_km seeker candidate).explanation.top_reasons =
      (sort_desc (triggered_reasons distance_km seeker candidate)).take 3 := rfl
  refine ⟨?_, ?_, ?_, ?_, rfl⟩
  · rw [htop]
    exact List.length_take_le 3 _
  · rw [htop]
    exact List.Pairwise.sublist (List.take_sublist 3 _)
      (sort_desc_pairwise (triggered_reasons distance_km seeker candidate))
  · intro x hx
    rw [htop] at hx
    exact (sort_desc_perm _).mem_iff.mp (List.mem_of_mem_take hx)
  · intro x hx hnot y hy
    rw [htop] at hnot hy
    have hxS : x ∈ sort_desc (triggered_reasons distance_km seeker candidate) :=
      (sort_desc_perm _).mem_iff.mpr hx
    have hxsplit : x ∈ (sort_desc (triggered_reasons distance_km seeker candidate)).take 3 ++
        (sort_desc (triggered_reasons distance_km seeker candidate)).drop 3 := by
      rw [List.take_append_drop]
      exact hxS
    have hxdrop : x ∈ (sort_desc (triggered_reasons distance_km seeker candidate)).drop 3 := by
      rcases List.mem_append.mp hxsplit with h | h
      · exact absurd h hnot
      · exact h
    have hsplit : ((sort_desc (triggered_reasons distance_km seeker candidate)).take 3 ++
        (sort_desc (triggered_reasons distance_km seeker candidate)).drop 3).Pairwise
        (fun a b => b.2 ≤ a.2) := by
      rw [List.take_append_drop]
      exact sort_desc_pairwise _
    exact (List.pairwise_append.mp hsplit).2.2 y hy x hxdrop

/-- Witness for C9: the cap and the conflict equality at a concrete input. -/
theorem C9_top_reasons_witness :
    (calculate_match defaultEngine 0 baseProfile
      { baseProfile with user_id := 2 }).explanation.top_reasons.length ≤ 3 ∧
    (calculate_match defaultEngine 0 baseProfile
      { baseProfile with user_id := 2 }).explanation.conflicts =
      triggered_conflicts 0 baseProfile { baseProfile with user_id := 2 } :=
  ⟨(C9_top_reasons defaultEngine 0 baseProfile { baseProfile with user_id := 2 }).1,
   (C9_top_reasons defaultEngine 0 baseProfile { baseProfile with user_id := 2 }).2.2.2.2⟩

/-- C10: a guest_frequency string outside never, rarely, sometimes, often is
scored exactly as rarely (numeric value 1), whatever the other profile is:
the mapping sends it to the value of rarely, and the lifestyle component is
unchanged by replacing it with rarely, with the unrecognized profile in the
seeker position as well as in the candidate position; in particular, when
both guest strings are unrecognized the pair receives the full 5-point guest
bonus and never the guest_frequency_conflict warning. -/
theorem C10_unknown_guest_frequency (p q : UserMatchProfile)
    (hp : p.guest_frequency ≠ "never" ∧ p.guest_frequency ≠ "rarely" ∧
      p.guest_frequency ≠ "sometimes" ∧ p.guest_frequency ≠ "often") :
    guest_frequency_value p.guest_frequency = guest_frequency_value "rarely" ∧
    score_lifestyle p q =
      score_lifestyle { p with guest_frequency := "rarely" } q ∧
    score_lifestyle q p =
      score_lifestyle q { p with guest_frequency := "rarely" } ∧
    ((q.guest_frequency ≠ "never" ∧ q.guest_frequency ≠ "rarely" ∧
        q.guest_frequency ≠ "sometimes" ∧ q.guest_frequency ≠ "often") →
      (score_lifestyle p q).1 =
        (if p.smoking_ok = q.smoking_ok then 5 else 0) +
        (if p.pets_ok = q.pets_ok then 5 else 0) + 5 ∧
      ConflictWarning.guest_frequency_conflict ∉ (score_lifestyle p q).2) := by
  have hvp : guest_frequency_value p.guest_frequency = 1 := by
    simp only [guest_frequency_value]
    rw [if_neg hp.1, if_neg hp.2.1, if_neg hp.2.2.1, if_neg hp.2.2.2]
  have hvr : guest_frequency_value "rarely" = 1 := by
    simp +decide [guest_frequency_value]
  refine ⟨hvp.trans hvr.symm, ?_, ?_, ?_⟩
  · simp only [score_lifestyle]
    rw [hvp, hvr]
  · simp only [score_lifestyle]
    rw [hvp, hvr]
  · intro hq
    have hvq : guest_frequency_value q.guest_frequency = 1 := by
      simp only [guest_frequency_value]
      rw [if_neg hq.1, if_neg hq.2.1, if_neg hq.2.2.1, if_neg hq.2.2.2]
    constructor
    · simp only [score_lifestyle]
      rw [hvp, hvq]
      simp only [sub_self, Int.natAbs_zero]
      split_ifs <;> norm_num
    · simp only [score_lifestyle]
      rw [hvp, hvq]
      simp only [sub_self, Int.natAbs_zero]
      split_ifs <;> simp

/-- Witness for C10: the unrecognized string weekly takes the rarely value;
replacing it with rarely leaves the lifestyle component unchanged against a
recognized counterpart (guest frequency often), in both positions; and
against the unrecognized counterpart daily there is no guest conflict. -/
theorem C10_unknown_guest_frequency_witness :
    guest_frequency_value "weekly" = guest_frequency_value "rarely" ∧
    score_lifestyle { baseProfile with guest_frequency := "weekly" }
        { baseProfile with user_id := 2, guest_frequency := "often" } =
      score_lifestyle { baseProfile with guest_frequency := "rarely" }
        { baseProfile with user_id := 2, guest_frequency := "often" } ∧
    score_lifestyle { baseProfile with user_id := 2, guest_frequency := "often" }
        { baseProfile with guest_frequency := "weekly" } =
      score_lifestyle { baseProfile with user_id := 2, guest_frequency := "often" }
        { baseProfile with guest_frequency := "rarely" } ∧
    ConflictWarning.guest_frequency_conflict ∉
      (score_lifestyle { baseProfile with guest_frequency := "weekly" }
        { baseProfile with user_id := 2, guest_frequency := "daily" }).2 :=
  ⟨(C10_unknown_guest_frequency
      { baseProfile with guest_frequency := "weekly" }
      { baseProfile with user_id := 2, guest_frequency := "often" }
      (by norm_num +decide [baseProfile])).1,
   (C10_unknown_guest_frequency
      { baseProfile with guest_frequency := "weekly" }
      { baseProfile with user_id := 2, guest_frequency := "often" }
      (by norm_num +decide [baseProfile])).2.1,
   (C10_unknown_guest_frequency
      { baseProfile with guest_frequency := "weekly" }
      { baseProfile with user_id := 2, guest_frequency := "often" }
      (by norm_num +decide [baseProfile])).2.2.1,
   ((C10_unknown_guest_frequency
      { baseProfile with guest_frequency := "weekly" }
      { baseProfile with user_id := 2, guest_frequency := "daily" }
      (by norm_num +decide [baseProfile])).2.2.2
      (by norm_num +decide [baseProfile])).2⟩

end RoommateFinder
